import Mathlib

/-!
Shallow embedding of `src/components/input/Checklist.js` from
dash-bootstrap-components: a checklist component that renders one
checkbox row per option, computes checked state by membership of the
option value in the `value` prop, and on toggle reports a full
replacement selection through `setProps`.
-/

/-- A JavaScript primitive usable as an option label or value:
`PropTypes.oneOfType([PropTypes.string, PropTypes.number])`. -/
inductive Val where
  | str (s : String)
  | num (n : Int)
  deriving DecidableEq

/-- Conversion to string as performed by a JS template literal
(template substitution of a string or number). -/
def Val.toJsString : Val → String
  | .str s => s
  | .num n => toString n

namespace Ramda

/-- Ramda `R.contains` (alias of `R.includes`): membership by `R.equals`. -/
def contains (v : Val) (xs : List Val) : Bool :=
  xs.contains v

/-- Ramda `R.without(vs, xs)`: the list `xs` with every element that occurs
in `vs` removed (ramda removes all matching occurrences). -/
def without (vs : List Val) (xs : List Val) : List Val :=
  xs.filter (fun x => !(vs.contains x))

/-- Ramda `R.append(v, xs)`: `xs` with `v` appended at the end. -/
def append (v : Val) (xs : List Val) : List Val :=
  xs ++ [v]

end Ramda

/-- A JS style object, as an ordered association list of CSS properties;
on lookup, later keys override earlier ones. -/
abbrev Style := List (String × String)

/-- JS object spread `\x7b...a, ...b\x7d`: the keys of `b` override those of `a`. -/
def spread (a b : Style) : Style :=
  a ++ b

/-- Lookup of a CSS property in a style object (last binding wins). -/
def styleLookup (s : Style) (k : String) : Option String :=
  (s.reverse.find? (fun kv => kv.1 == k)).map Prod.snd

/-- The `classnames` library: joins the truthy arguments with single
spaces. `none` stands for a falsy argument (`false` or `undefined`);
empty strings are falsy in JS and are skipped as well. -/
def classNames (args : List (Option String)) : String :=
  String.intercalate " " ((args.filterMap id).filter (fun s => !(s == "")))

/-- JS `Boolean(x)` for an optional boolean prop (`undefined` is falsy). -/
def jsBool (b : Option Bool) : Bool :=
  b.getD false

/-- JS truthiness of an optional string prop: present and non-empty. -/
def truthyStr : Option String → Bool
  | some s => !(s == "")
  | none => false

/-- JS `s || d` for an optional string `s` and default `d`:
`d` when `s` is `undefined` or the empty string. -/
def jsOrString (s : Option String) (d : String) : String :=
  match s with
  | some s => if s == "" then d else s
  | none => d

/-- One entry of the `options` prop:
`\x7blabel, value, disabled?\x7d`. -/
structure ChecklistOption where
  label : Val
  value : Val
  disabled : Option Bool
  deriving DecidableEq

/-- The `loading_state` prop coming from dash-renderer. -/
structure LoadingState where
  is_loading : Option Bool
  prop_name : Option String
  component_name : Option String
  deriving DecidableEq

/-- The props of the `Checklist` component that its render logic reads
(persistence props are pass-through only and are not read here). -/
structure ChecklistProps where
  id : Option String
  options : List ChecklistOption
  value : List Val
  className : Option String
  style : Style
  key : Option String
  inputStyle : Style
  inputClassName : String
  labelStyle : Style
  labelCheckedStyle : Style
  labelClassName : String
  labelCheckedClassName : Option String
  inline : Option Bool
  switches : Option Bool
  custom : Bool
  loading_state : Option LoadingState
  deriving DecidableEq

/-- The source's `Checklist.defaultProps` (restricted to the fields read by render):
empty styles and class names, empty options and value, custom mode on. -/
def defaultProps : ChecklistProps :=
  { id := none
    options := []
    value := []
    className := none
    style := []
    key := none
    inputStyle := []
    inputClassName := ""
    labelStyle := []
    labelCheckedStyle := []
    labelClassName := ""
    labelCheckedClassName := none
    inline := none
    switches := none
    custom := true
    loading_state := none }

/-- Which of the two rendering strategies a row used. -/
inductive RenderMode where
  | custom
  | native
  deriving DecidableEq

/-- The observable output of `listItem` for one option: either a
`CustomInput` element (custom mode) or a `div.form-check` containing a
native input and label (native mode), flattened to the attributes the
spec talks about. `onChangeValue` is the full replacement selection the
`onChange` handler passes to `setProps` as `\x7bvalue: newValue\x7d`. -/
structure RenderedItem where
  mode : RenderMode
  inputId : String
  checked : Bool
  disabled : Bool
  inputType : String
  inputClassName : String
  inputStyle : Option Style
  rowClassName : Option String
  inline : Bool
  label : Val
  labelStyle : Style
  labelClassName : String
  onChangeValue : List Val
  key : Val
  deriving DecidableEq

/-- The new selection computed inside both `onChange` handlers (the two
branches of `listItem` contain this code verbatim):
if the option value is in `value`, `without([option.value], value)`,
otherwise `append(option.value, value)`. -/
def onChangeValue (v : Val) (value : List Val) : List Val :=
  if Ramda.contains v value then
    Ramda.without [v] value
  else
    Ramda.append v value

/-- The method `Checklist.listItem`, translated from the source. -/
def listItem (p : ChecklistProps) (option : ChecklistOption) : RenderedItem :=
  let checked := Ramda.contains option.value p.value
  let mergedLabelStyle :=
    if checked then spread p.labelStyle p.labelCheckedStyle else p.labelStyle
  if truthyStr p.id && p.custom then
    { mode := RenderMode.custom
      inputId := "_" ++ p.id.getD "" ++ "-" ++ option.value.toJsString
      checked := checked
      disabled := jsBool option.disabled
      inputType := if jsBool p.switches then "switch" else "checkbox"
      inputClassName := p.inputClassName
      inputStyle := none
      rowClassName := none
      inline := jsBool p.inline
      label := option.label
      labelStyle := mergedLabelStyle
      labelClassName :=
        classNames [some p.labelClassName,
          if checked then p.labelCheckedClassName else none]
      onChangeValue := onChangeValue option.value p.value
      key := option.value }
  else
    { mode := RenderMode.native
      inputId :=
        "_" ++ jsOrString p.id "_dbcprivate_checklist" ++ "-"
          ++ option.value.toJsString
      checked := checked
      disabled := jsBool option.disabled
      inputType := "checkbox"
      inputClassName := classNames [some "form-check-input", some p.inputClassName]
      inputStyle := some p.inputStyle
      rowClassName :=
        some (classNames [some "form-check",
          if jsBool p.inline then some "form-check-inline" else none])
      inline := jsBool p.inline
      label := option.label
      labelStyle := mergedLabelStyle
      labelClassName :=
        classNames [some "form-check-label", some p.labelClassName,
          if checked then p.labelCheckedClassName else none]
      onChangeValue := onChangeValue option.value p.value
      key := option.value }

/-- The `data-dash-is-loading` attribute of the container, computed as
`(loading_state && loading_state.is_loading) || undefined`:
`some true` when the attribute is present, `none` when it is `undefined`
(and hence absent from the DOM). -/
def dashLoadingAttr : Option LoadingState → Option Bool
  | none => none
  | some l =>
    match l.is_loading with
    | some true => some true
    | _ => none

/-- The observable output of `Checklist.render`: the container div with
its attributes and the list of rendered rows. -/
structure RenderedChecklist where
  id : Option String
  style : Style
  className : Option String
  key : Option String
  dataDashIsLoading : Option Bool
  items : List RenderedItem
  deriving DecidableEq

/-- The method `Checklist.render`, translated from the source:
`items = options.map(option => this.listItem(option))` inside the
container div. -/
def render (p : ChecklistProps) : RenderedChecklist :=
  { id := p.id
    style := p.style
    className := p.className
    key := p.key
    dataDashIsLoading := dashLoadingAttr p.loading_state
    items := p.options.map (fun option => listItem p option) }

/-- A store of JS arrays, for reasoning about aliasing: a reference is an
index into the store. -/
structure Store where
  arrays : List (List Val)
  deriving DecidableEq

/-- Dereference an array reference. -/
def Store.read (h : Store) (r : Nat) : List Val :=
  (h.arrays[r]?).getD []

/-- Allocate a fresh array, returning the new store and the new reference. -/
def Store.alloc (h : Store) (xs : List Val) : Store × Nat :=
  (⟨h.arrays ++ [xs]⟩, h.arrays.length)

/-- Store-level model of the `onChange` handler: `R.without` and `R.append`
are non-mutating and return newly constructed arrays, so the handler reads
the `value` array through its reference and allocates the replacement
selection as a fresh array, whose reference is what `setProps` receives. -/
def toggleRef (h : Store) (r : Nat) (v : Val) : Store × Nat :=
  h.alloc (onChangeValue v (h.read r))

/-- The first option of the spec's worked example:
`\x7blabel: "A", value: 1\x7d`. -/
def exampleOptA : ChecklistOption :=
  { label := Val.str "A", value := Val.num 1, disabled := none }

/-- The second option of the spec's worked example:
`\x7blabel: "B", value: 2\x7d`. -/
def exampleOptB : ChecklistOption :=
  { label := Val.str "B", value := Val.num 2, disabled := none }

/-- The spec's worked example props: options `[A, B]`, selection `[1]`. -/
def exampleProps : ChecklistProps :=
  { defaultProps with options := [exampleOptA, exampleOptB], value := [Val.num 1] }

/-- The worked example props after toggling B: selection `[1, 2]`. -/
def exampleProps2 : ChecklistProps :=
  { exampleProps with value := [Val.num 1, Val.num 2] }

/-- Props whose selection contains a duplicated value. -/
def dupProps : ChecklistProps :=
  { defaultProps with value := [Val.num 1, Val.num 1] }

/-- The base arguments of the label's `classNames` call in each mode: the
native row always carries the framework class `form-check-label` in front
of the configured label class. -/
def labelBaseArgs (p : ChecklistProps) : RenderMode → List (Option String)
  | RenderMode.custom => [some p.labelClassName]
  | RenderMode.native => [some "form-check-label", some p.labelClassName]

theorem ramda_contains_iff_mem (v : Val) (xs : List Val) :
    Ramda.contains v xs = true ↔ v ∈ xs := by
  simp [Ramda.contains]

theorem ramda_without_singleton (v : Val) (xs : List Val) :
    Ramda.without [v] xs = xs.filter (fun x => x ≠ v) := by
  unfold Ramda.without
  apply List.filter_congr
  intro x _
  simp

theorem onChangeValue_of_mem (v : Val) (xs : List Val) (h : v ∈ xs) :
    onChangeValue v xs = xs.filter (fun x => x ≠ v) := by
  rw [onChangeValue, if_pos ((ramda_contains_iff_mem v xs).mpr h),
    ramda_without_singleton]

theorem onChangeValue_of_not_mem (v : Val) (xs : List Val) (h : v ∉ xs) :
    onChangeValue v xs = xs ++ [v] := by
  rw [onChangeValue, if_neg, Ramda.append]
  intro hc
  exact h ((ramda_contains_iff_mem v xs).mp hc)

theorem listItem_checked (p : ChecklistProps) (o : ChecklistOption) :
    (listItem p o).checked = Ramda.contains o.value p.value := by
  unfold listItem
  split <;> rfl

theorem listItem_disabled_eq (p : ChecklistProps) (o : ChecklistOption) :
    (listItem p o).disabled = jsBool o.disabled := by
  unfold listItem
  split <;> rfl

theorem listItem_onChange (p : ChecklistProps) (o : ChecklistOption) :
    (listItem p o).onChangeValue = onChangeValue o.value p.value := by
  unfold listItem
  split <;> rfl

theorem listItem_mode_eq (p : ChecklistProps) (o : ChecklistOption) :
    (listItem p o).mode =
      if truthyStr p.id && p.custom then RenderMode.custom else RenderMode.native := by
  unfold listItem
  split <;> simp_all

theorem listItem_labelStyle_eq (p : ChecklistProps) (o : ChecklistOption) :
    (listItem p o).labelStyle =
      if Ramda.contains o.value p.value then spread p.labelStyle p.labelCheckedStyle
      else p.labelStyle := by
  unfold listItem
  split <;> rfl

theorem listItem_labelClassName_eq (p : ChecklistProps) (o : ChecklistOption) :
    (listItem p o).labelClassName =
      classNames (labelBaseArgs p (listItem p o).mode ++
        [if Ramda.contains o.value p.value then p.labelCheckedClassName else none]) := by
  unfold listItem labelBaseArgs
  split <;> rfl

theorem styleLookup_spread (a b : Style) (k : String) :
    styleLookup (spread a b) k = (styleLookup b k).or (styleLookup a k) := by
  unfold styleLookup spread
  rw [List.reverse_append, List.find?_append]
  cases b.reverse.find? (fun kv => kv.1 == k) <;> rfl

/-- C2: for every option/selection pair and in both rendering modes
(the quantification over props covers custom and native mode alike),
the rendered input is checked iff the option's value is a member of the
selection list. -/
theorem checklist_checked_iff_mem (p : ChecklistProps) (o : ChecklistOption) :
    (listItem p o).checked = true ↔ o.value ∈ p.value := by
  rw [listItem_checked]
  exact ramda_contains_iff_mem o.value p.value

/-- C3: the custom-styled rendering path is taken iff a truthy (present,
non-empty) id is supplied and the custom flag is enabled; in every other
case the native path is used. In particular the default props (id absent,
custom true) render natively. -/
theorem checklist_mode_custom_iff :
    (∀ (p : ChecklistProps) (o : ChecklistOption),
      ((listItem p o).mode = RenderMode.custom ↔
        (truthyStr p.id = true ∧ p.custom = true)) ∧
      ((listItem p o).mode = RenderMode.native ↔
        ¬(truthyStr p.id = true ∧ p.custom = true)))
    ∧ (listItem defaultProps exampleOptA).mode = RenderMode.native := by
  refine ⟨fun p o => ?_, by decide⟩
  rw [listItem_mode_eq]
  by_cases h : (truthyStr p.id && p.custom) = true
  · rw [if_pos h]
    rw [Bool.and_eq_true] at h
    simp [h]
  · rw [if_neg h]
    rw [Bool.and_eq_true] at h
    simp [h]

/-- C6: in both rendering modes and regardless of checked state, the
rendered input is disabled iff the option declares `disabled` truthy;
options without a truthy disabled flag render enabled inputs. -/
theorem checklist_disabled_iff (p : ChecklistProps) (o : ChecklistOption) :
    (listItem p o).disabled = true ↔ o.disabled = some true := by
  rw [listItem_disabled_eq]
  unfold jsBool
  cases h : o.disabled with
  | none => simp
  | some b => cases b <;> simp

/-- C5: rendering produces exactly one item per option (same length), and
the item at every index is the rendered row of the option at that index,
so the items appear in the order of the options list. -/
theorem checklist_render_one_item_per_option (p : ChecklistProps) (i : Nat) :
    (render p).items.length = p.options.length
    ∧ (render p).items[i]? = (p.options[i]?).map (fun o => listItem p o) := by
  unfold render
  simp

/-- C1: toggling an option replaces the whole selection: the `onChange`
handler hands `setProps` a full replacement list which, when the option's
value is in the current selection, is the current selection with that
value removed, and otherwise is the current selection with that value
appended at the end. On the worked example (options A=1, B=2, selection
[1]) toggling B yields [1, 2] and toggling A afterwards yields [2]. -/
theorem checklist_toggle_full_replacement :
    (∀ (p : ChecklistProps) (o : ChecklistOption),
      (o.value ∈ p.value →
        (listItem p o).onChangeValue = p.value.filter (fun x => x ≠ o.value)) ∧
      (o.value ∉ p.value →
        (listItem p o).onChangeValue = p.value ++ [o.value]))
    ∧ (listItem exampleProps exampleOptB).onChangeValue = [Val.num 1, Val.num 2]
    ∧ (listItem exampleProps2 exampleOptA).onChangeValue = [Val.num 2] := by
  refine ⟨fun p o => ⟨fun h => ?_, fun h => ?_⟩, by decide, by decide⟩
  · rw [listItem_onChange]
    exact onChangeValue_of_mem o.value p.value h
  · rw [listItem_onChange]
    exact onChangeValue_of_not_mem o.value p.value h

/-- Witness for C1 at the worked example: value 2 is not in [1], and
toggling B appends it. -/
theorem checklist_toggle_full_replacement_witness :
    exampleOptB.value ∉ exampleProps.value ∧
    (listItem exampleProps exampleOptB).onChangeValue
      = exampleProps.value ++ [exampleOptB.value] :=
  ⟨by decide,
    (checklist_toggle_full_replacement.1 exampleProps exampleOptB).2 (by decide)⟩

theorem filter_ne_eq_filter_bne (v : Val) (xs : List Val) :
    xs.filter (fun x => x ≠ v) = xs.filter (fun x => !(x == v)) := by
  apply List.filter_congr
  intro x _
  simp only [ne_eq, decide_not]
  rfl

theorem filter_ne_eq_erase_of_count_le_one (v : Val) (xs : List Val)
    (h : v ∈ xs) (hc : xs.count v ≤ 1) :
    xs.filter (fun x => x ≠ v) = xs.erase v := by
  rw [filter_ne_eq_filter_bne]
  induction xs with
  | nil => cases h
  | cons a t ih =>
    by_cases hav : a = v
    · subst hav
      rw [List.erase_cons_head]
      have hnt : a ∉ t := by
        simp only [List.count_cons, beq_self_eq_true, if_true] at hc
        exact List.count_eq_zero.mp (by omega)
      simp only [List.filter_cons, beq_self_eq_true, Bool.not_true,
        Bool.false_eq_true, if_false]
      rw [List.filter_eq_self]
      intro x hx
      simp only [Bool.not_eq_true', beq_eq_false_iff_ne]
      exact fun he => hnt (he ▸ hx)
    · rw [List.erase_cons_tail (by simp [hav])]
      have hcond : (!(a == v)) = true := by simp [hav]
      simp only [List.filter_cons, hcond, if_true]
      have hv : v ∈ t := by
        cases h with
        | head => exact absurd rfl hav
        | tail _ ht => exact ht
      have hc2 : t.count v ≤ 1 := by
        rw [List.count_cons] at hc
        omega
      rw [ih hv hc2]

/-- Counterexample for C4 as stated: with the selection `[1, 1]` (a
duplicated value) toggling the checked option with value 1 yields `[]`
— ramda's `without` removes every matching occurrence — whereas removal
of only the first matching occurrence would yield `[1]`. -/
theorem checklist_remove_first_only_counterexample :
    (listItem dupProps exampleOptA).onChangeValue = []
    ∧ dupProps.value.erase exampleOptA.value = [Val.num 1]
    ∧ (listItem dupProps exampleOptA).onChangeValue
        ≠ dupProps.value.erase exampleOptA.value := by
  exact ⟨by decide, by decide, by decide⟩

/-- C4 amended: toggling a currently-checked option removes every
occurrence of its value, preserving the order of all untouched elements;
when the value occurs at most once in the selection — values are expected
unique — this coincides with removing the first matching occurrence.
Toggling a currently-unchecked option appends the value once, all
existing elements keeping their order. -/
theorem checklist_toggle_removal_order (p : ChecklistProps) (o : ChecklistOption) :
    (o.value ∈ p.value →
      (listItem p o).onChangeValue = p.value.filter (fun x => x ≠ o.value)
      ∧ (p.value.count o.value ≤ 1 →
        (listItem p o).onChangeValue = p.value.erase o.value))
    ∧ (o.value ∉ p.value →
      (listItem p o).onChangeValue = p.value ++ [o.value]) := by
  constructor
  · intro h
    have hbase : (listItem p o).onChangeValue = p.value.filter (fun x => x ≠ o.value) := by
      rw [listItem_onChange]
      exact onChangeValue_of_mem o.value p.value h
    refine ⟨hbase, fun hc => ?_⟩
    rw [hbase]
    exact filter_ne_eq_erase_of_count_le_one o.value p.value h hc
  · intro h
    rw [listItem_onChange]
    exact onChangeValue_of_not_mem o.value p.value h

/-- Witness for C4 amended: toggling A (value 1, occurring once) in the
selection `[1, 2]` removes exactly the first occurrence. -/
theorem checklist_toggle_removal_order_witness :
    exampleOptA.value ∈ exampleProps2.value
    ∧ exampleProps2.value.count exampleOptA.value ≤ 1
    ∧ (listItem exampleProps2 exampleOptA).onChangeValue
        = exampleProps2.value.erase exampleOptA.value :=
  ⟨by decide, by decide,
    ((checklist_toggle_removal_order exampleProps2 exampleOptA).1
      (by decide)).2 (by decide)⟩

/-- Props exercising the label styling: a checked option with base and
checked-state style and class overrides. -/
def styledProps : ChecklistProps :=
  { defaultProps with
      value := [Val.num 1]
      labelStyle := [("color", "red"), ("margin", "4px")]
      labelCheckedStyle := [("color", "blue")]
      labelClassName := "base-label"
      labelCheckedClassName := some "checked-label" }

/-- C7: when the option is checked, the label's effective style is the
base label style overridden key-by-key by the checked-label style (the
checked style wins on every key it defines, the base style supplies the
rest), and the label's class list is the mode's base arguments plus the
checked-label class; when unchecked, the label carries the plain base
style and the base class arguments only. Holds in both rendering modes
(`labelBaseArgs` names the per-mode base class arguments). -/
theorem checklist_label_style_class (p : ChecklistProps) (o : ChecklistOption)
    (k : String) :
    (o.value ∈ p.value →
      (listItem p o).labelStyle = spread p.labelStyle p.labelCheckedStyle
      ∧ styleLookup (listItem p o).labelStyle k
          = (styleLookup p.labelCheckedStyle k).or (styleLookup p.labelStyle k)
      ∧ (listItem p o).labelClassName
          = classNames (labelBaseArgs p (listItem p o).mode
              ++ [p.labelCheckedClassName]))
    ∧ (o.value ∉ p.value →
      (listItem p o).labelStyle = p.labelStyle
      ∧ (listItem p o).labelClassName
          = classNames (labelBaseArgs p (listItem p o).mode)) := by
  constructor
  · intro h
    have hc : Ramda.contains o.value p.value = true :=
      (ramda_contains_iff_mem o.value p.value).mpr h
    refine ⟨?_, ?_, ?_⟩
    · rw [listItem_labelStyle_eq, if_pos hc]
    · rw [listItem_labelStyle_eq, if_pos hc, styleLookup_spread]
    · rw [listItem_labelClassName_eq, if_pos hc]
  · intro h
    have hc : ¬(Ramda.contains o.value p.value = true) := by
      intro hctr
      exact h ((ramda_contains_iff_mem o.value p.value).mp hctr)
    constructor
    · rw [listItem_labelStyle_eq, if_neg hc]
    · rw [listItem_labelClassName_eq, if_neg hc]
      simp [classNames, List.filterMap_append]

/-- Witness for C7 on `styledProps` with the checked option A: the
checked color wins, the base margin survives, and the checked class is
added after the base class. -/
theorem checklist_label_style_class_witness :
    exampleOptA.value ∈ styledProps.value
    ∧ styleLookup (listItem styledProps exampleOptA).labelStyle "color"
        = (styleLookup styledProps.labelCheckedStyle "color").or
            (styleLookup styledProps.labelStyle "color")
    ∧ (listItem styledProps exampleOptA).labelClassName
        = classNames (labelBaseArgs styledProps (listItem styledProps exampleOptA).mode
            ++ [styledProps.labelCheckedClassName]) :=
  ⟨by decide,
    ((checklist_label_style_class styledProps exampleOptA "color").1 (by decide)).2.1,
    ((checklist_label_style_class styledProps exampleOptA "color").1 (by decide)).2.2⟩

/-- C8: the container's `data-dash-is-loading` attribute is present
(`some true`) iff the `loading_state` descriptor is supplied with a
truthy `is_loading`; its only other value is `none` (the attribute is
`undefined`, hence absent), covering descriptor absent and `is_loading`
absent or false. -/
theorem checklist_loading_attr (p : ChecklistProps) :
    ((render p).dataDashIsLoading = some true ↔
      ∃ l, p.loading_state = some l ∧ l.is_loading = some true)
    ∧ ((render p).dataDashIsLoading = some true
        ∨ (render p).dataDashIsLoading = none) := by
  have hrw : (render p).dataDashIsLoading = dashLoadingAttr p.loading_state := rfl
  rw [hrw]
  cases hls : p.loading_state with
  | none => simp [dashLoadingAttr]
  | some l =>
    cases hb : l.is_loading with
    | none => simp [dashLoadingAttr, hb]
    | some b => cases b <;> simp [dashLoadingAttr, hb]

/-- A one-array store holding the selection `[1]`. -/
def store0 : Store :=
  { arrays := [[Val.num 1]] }

/-- C9: at the store level, a toggle reads the host-supplied selection
array and allocates the replacement as a fresh array: every array that
existed before — in particular the argument selection — is unchanged
afterwards, and the reference handed to `setProps` is a new one, distinct
from the argument's. -/
theorem checklist_toggle_no_mutation (h : Store) (r : Nat) (v : Val)
    (hr : r < h.arrays.length) :
    (toggleRef h r v).2 ≠ r
    ∧ (∀ i, i < h.arrays.length → (toggleRef h r v).1.read i = h.read i)
    ∧ (toggleRef h r v).1.read (toggleRef h r v).2 = onChangeValue v (h.read r) := by
  refine ⟨?_, fun i hi => ?_, ?_⟩
  · show h.arrays.length ≠ r
    omega
  · show ((h.arrays ++ [onChangeValue v (h.read r)])[i]?).getD []
        = (h.arrays[i]?).getD []
    rw [List.getElem?_append_left hi]
  · show ((h.arrays ++ [onChangeValue v (h.read r)])[h.arrays.length]?).getD []
        = onChangeValue v (h.read r)
    rw [List.getElem?_append_right (Nat.le_refl h.arrays.length)]
    simp

/-- Witness for C9 on a one-array store: the new reference is distinct
and the original selection array is untouched. -/
theorem checklist_toggle_no_mutation_witness :
    (toggleRef store0 0 (Val.num 2)).2 ≠ 0
    ∧ (toggleRef store0 0 (Val.num 2)).1.read 0 = store0.read 0 :=
  ⟨(checklist_toggle_no_mutation store0 0 (Val.num 2) (by decide)).1,
    (checklist_toggle_no_mutation store0 0 (Val.num 2) (by decide)).2.1 0 (by decide)⟩

/-- C10: starting from a selection that does not contain the option's
value, toggling the option twice in succession restores the original
selection. -/
theorem checklist_toggle_involutive (p : ChecklistProps) (o : ChecklistOption)
    (h : o.value ∉ p.value) :
    (listItem { p with value := (listItem p o).onChangeValue } o).onChangeValue
      = p.value := by
  rw [listItem_onChange]
  have hfield : ({ p with value := (listItem p o).onChangeValue } : ChecklistProps).value
      = (listItem p o).onChangeValue := rfl
  rw [hfield, listItem_onChange, onChangeValue_of_not_mem o.value p.value h]
  have hmem : o.value ∈ p.value ++ [o.value] :=
    List.mem_append_right p.value (by simp)
  rw [onChangeValue_of_mem o.value (p.value ++ [o.value]) hmem, List.filter_append]
  have h1 : p.value.filter (fun x => x ≠ o.value) = p.value := by
    rw [List.filter_eq_self]
    intro a ha
    simp only [ne_eq, decide_not, Bool.not_eq_eq_eq_not, Bool.not_true,
      decide_eq_false_iff_not]
    exact fun he => h (he ▸ ha)
  have h2 : ([o.value].filter (fun x => x ≠ o.value)) = [] := by simp
  rw [h1, h2, List.append_nil]

/-- Witness for C10: value 2 is not in the example selection `[1]`, and
toggling B twice brings the selection back to `[1]`. -/
theorem checklist_toggle_involutive_witness :
    exampleOptB.value ∉ exampleProps.value
    ∧ (listItem { exampleProps with
          value := (listItem exampleProps exampleOptB).onChangeValue }
        exampleOptB).onChangeValue = exampleProps.value :=
  ⟨by decide, checklist_toggle_involutive exampleProps exampleOptB (by decide)⟩
